import Mathlib

/-!
Shallow embedding of `src/rede.py` (a periodic network-interface bandwidth
sampler).  The host's network-statistics subsystem (psutil) is modelled as
data: the table of per-interface cumulative counters seen at start time, and
a trace of per-tick host replies, where every host call may either return a
value or raise a Python exception (`KeyboardInterrupt` or a generic
`Exception`).  The loop of `monitor_network_traffic` is translated tick by
tick, in the exact order of the source: while-condition on elapsed time,
link-status query, time append, counter query, bandwidth computation and
append, the three protocol-count queries and appends, counter update, sleep.
-/

namespace Rede

/-- Per-interface cumulative byte counters, as returned by
`psutil.net_io_counters(pernic=True)` for one interface (only the two fields
the program reads). -/
structure Counters where
  bytes_sent : ℕ
  bytes_recv : ℕ
deriving DecidableEq, Repr

/-- Per-interface link statistics, as returned by `psutil.net_if_stats()`
for one interface (only the field the program reads). -/
structure IfStats where
  isup : Bool
deriving DecidableEq, Repr

/-- The two kinds of exception the `try` block of
`monitor_network_traffic` distinguishes: `except KeyboardInterrupt` and
`except Exception`. -/
inductive PyExc where
  | keyboardInterrupt
  | generalException
deriving DecidableEq, Repr

/-- The host's replies during one iteration of the sampling loop, in the
order the source issues the calls.  Each reply is either a returned value or
a raised exception.  `elapsed` is the wall-clock value
`time.time() - start_time` observed by the while-condition of this
iteration; `ifStats` is `psutil.net_if_stats().get(interface)`; `counters`
is `psutil.net_io_counters(pernic=True).get(interface)`; `tcpConns` and
`udpConns` are the lengths of `psutil.net_connections(kind=...)`;
`icmpCount` is the count derived from the second `psutil.net_if_stats()`
call; `sleep` is `time.sleep(interval)`. -/
structure Tick where
  elapsed : ℚ
  ifStats : Except PyExc (Option IfStats)
  counters : Except PyExc (Option Counters)
  tcpConns : Except PyExc ℕ
  udpConns : Except PyExc ℕ
  icmpCount : Except PyExc ℕ
  sleep : Except PyExc Unit

/-- The five accumulator lists of `monitor_network_traffic`:
`time_values, bw_values, tcp_values, udp_values, icmp_values`. -/
structure TrafficLists where
  time_values : List ℚ
  bw_values : List ℚ
  tcp_values : List ℕ
  udp_values : List ℕ
  icmp_values : List ℕ
deriving DecidableEq, Repr

/-- All five lists empty, as initialised at the top of
`monitor_network_traffic`. -/
def emptyLists : TrafficLists := ⟨[], [], [], [], []⟩

/-- How control leaves the `while` loop: the while-condition turning false,
one of the three `break` statements, an exception propagating out of the
loop body, or the model's finite trace of host replies running out. -/
inductive LoopExit where
  | normal
  | brokeVanished
  | brokeLinkDown
  | brokeCountersUnavailable
  | raised (e : PyExc)
  | traceEnded
deriving DecidableEq, Repr

/-- Why `monitor_network_traffic` returned, distinguished by the alert it
printed on the way out (the function itself always returns the five
accumulated lists). -/
inductive StopReason where
  | invalidInterval
  | interfaceNotFound
  | durationReached
  | interfaceVanished
  | linkDown
  | countersUnavailable
  | caughtKeyboardInterrupt
  | caughtException
  | traceEnded
deriving DecidableEq, Repr

/-- The `try ... except KeyboardInterrupt ... except Exception` wrapper:
every way out of the loop is mapped to a normal return with a reason; no
exception propagates to the caller. -/
def catchExit : LoopExit → StopReason
  | .normal => .durationReached
  | .brokeVanished => .interfaceVanished
  | .brokeLinkDown => .linkDown
  | .brokeCountersUnavailable => .countersUnavailable
  | .raised .keyboardInterrupt => .caughtKeyboardInterrupt
  | .raised .generalException => .caughtException
  | .traceEnded => .traceEnded

/-- Python's `round` on a rational: round to the nearest integer, ties to
even (banker's rounding). -/
def pythonRound (q : ℚ) : ℤ :=
  let f : ℤ := ⌊q⌋
  let r : ℚ := q - (f : ℚ)
  if r < 1 / 2 then f
  else if 1 / 2 < r then f + 1
  else if f % 2 = 0 then f else f + 1

/-- `round(x, 1)` from line 122 of the source. -/
def round1 (q : ℚ) : ℚ := (pythonRound (q * 10) : ℚ) / 10

/-- Line 137 of the source:
`sent_bw = ((current_bytes_sent - initial_bytes_sent) * 8) / (interval * 1024 * 1024)`. -/
def sent_bw (prevSent currSent : ℕ) (interval : ℚ) : ℚ :=
  (((currSent : ℤ) - (prevSent : ℤ)) * 8 : ℤ) / (interval * 1024 * 1024)

/-- Line 138 of the source:
`recv_bw = ((current_bytes_recv - initial_bytes_recv) * 8) / (interval * 1024 * 1024)`. -/
def recv_bw (prevRecv currRecv : ℕ) (interval : ℚ) : ℚ :=
  (((currRecv : ℤ) - (prevRecv : ℤ)) * 8 : ℤ) / (interval * 1024 * 1024)

/-- Outcome of one iteration of the loop body: either control leaves the
loop (with the entries this partial iteration appended, and how it left), or
the iteration completes and the loop continues with updated previous
counters. -/
inductive StepOut where
  | halt (ls : TrafficLists) (ex : LoopExit)
  | cont (tv total : ℚ) (ntcp nudp nicmp : ℕ) (newSent newRecv : ℕ)
deriving DecidableEq, Repr

/-- One iteration of the `while` body of `monitor_network_traffic`
(lines 111-158), in source order: while-condition, link-status query and
the two guarded `break`s, `time_values.append(round(elapsed, 1))`, counter
query and its `break`, bandwidth computation and `bw_values.append`, the
three protocol queries and appends, counter update, `time.sleep`. -/
def stepTick (duration interval : ℚ) (force : Bool) (prevSent prevRecv : ℕ)
    (t : Tick) : StepOut :=
  if t.elapsed < duration then
    match t.ifStats with
    | .error e => .halt emptyLists (.raised e)
    | .ok none => .halt emptyLists .brokeVanished
    | .ok (some s) =>
      if !s.isup && !force then .halt emptyLists .brokeLinkDown
      else
        match t.counters with
        | .error e => .halt ⟨[round1 t.elapsed], [], [], [], []⟩ (.raised e)
        | .ok none =>
          .halt ⟨[round1 t.elapsed], [], [], [], []⟩ .brokeCountersUnavailable
        | .ok (some c) =>
          match t.tcpConns with
          | .error e =>
            .halt ⟨[round1 t.elapsed],
              [sent_bw prevSent c.bytes_sent interval +
                recv_bw prevRecv c.bytes_recv interval], [], [], []⟩
              (.raised e)
          | .ok ntcp =>
            match t.udpConns with
            | .error e =>
              .halt ⟨[round1 t.elapsed],
                [sent_bw prevSent c.bytes_sent interval +
                  recv_bw prevRecv c.bytes_recv interval], [], [], []⟩
                (.raised e)
            | .ok nudp =>
              match t.icmpCount with
              | .error e =>
                .halt ⟨[round1 t.elapsed],
                  [sent_bw prevSent c.bytes_sent interval +
                    recv_bw prevRecv c.bytes_recv interval], [], [], []⟩
                  (.raised e)
              | .ok nicmp =>
                match t.sleep with
                | .error e =>
                  .halt ⟨[round1 t.elapsed],
                    [sent_bw prevSent c.bytes_sent interval +
                      recv_bw prevRecv c.bytes_recv interval],
                    [ntcp], [nudp], [nicmp]⟩ (.raised e)
                | .ok _ =>
                  .cont (round1 t.elapsed)
                    (sent_bw prevSent c.bytes_sent interval +
                      recv_bw prevRecv c.bytes_recv interval)
                    ntcp nudp nicmp c.bytes_sent c.bytes_recv
  else .halt emptyLists .normal

/-- The `while` loop of `monitor_network_traffic`, driven by the finite
trace of host replies: each tick either halts the loop (returning the
entries appended so far in that iteration) or contributes one entry to each
of the five lists and continues with the updated previous counters. -/
def monitorLoop (duration interval : ℚ) (force : Bool)
    (prevSent prevRecv : ℕ) : List Tick → TrafficLists × LoopExit
  | [] => (emptyLists, .traceEnded)
  | t :: rest =>
    match stepTick duration interval force prevSent prevRecv t with
    | .halt ls ex => (ls, ex)
    | .cont tv total ntcp nudp nicmp ns nr =>
      let r := monitorLoop duration interval force ns nr rest
      (⟨tv :: r.1.time_values, total :: r.1.bw_values, ntcp :: r.1.tcp_values,
        nudp :: r.1.udp_values, nicmp :: r.1.icmp_values⟩, r.2)

/-- `table.get(name)`: look an interface up in the per-interface counter
table (dict keys are unique, so first match is the match). -/
def lookupIface (table : List (String × Counters)) (name : String) :
    Option Counters :=
  (table.find? (fun p => p.1 == name)).map Prod.snd

/-- What `monitor_network_traffic` hands back: the five accumulated lists,
plus (model annotation) the reason the session ended. -/
structure MonitorResult where
  lists : TrafficLists
  reason : StopReason
deriving DecidableEq, Repr

/-- `monitor_network_traffic(interface, duration, interval, force_monitor)`
from the source: the early returns for a non-positive interval (line 92) and
an unknown interface (line 97), then the initial counter read and the
`try`-wrapped sampling loop; every exit path returns the accumulated
lists (line 164). `startStats` is the `psutil.net_io_counters(pernic=True)`
table at start time; `trace` supplies the host's replies per tick. -/
def monitor_network_traffic (interface : String) (duration interval : ℚ)
    (force_monitor : Bool) (startStats : List (String × Counters))
    (trace : List Tick) : MonitorResult :=
  if interval ≤ 0 then ⟨emptyLists, .invalidInterval⟩
  else
    match lookupIface startStats interface with
    | none => ⟨emptyLists, .interfaceNotFound⟩
    | some c0 =>
      let r := monitorLoop duration interval force_monitor
        c0.bytes_sent c0.bytes_recv trace
      ⟨r.1, catchExit r.2⟩

/-- `get_available_interfaces()`: the host-reported interface names with the
first occurrence of `'lo'` removed (`interfaces.remove('lo')`). -/
def get_available_interfaces (table : List (String × Counters)) :
    List String :=
  (table.map Prod.fst).erase "lo"

/-- The condition of line 40 of the source:
`stats and (stats.bytes_sent > 0 or stats.bytes_recv > 0)`, where `stats`
is `psutil.net_io_counters(pernic=True).get(interface)`. -/
def isActive (table : List (String × Counters)) (iface : String) : Bool :=
  match lookupIface table iface with
  | some stats => decide (0 < stats.bytes_sent) || decide (0 < stats.bytes_recv)
  | none => false

/-- `auto_select_interface()`: the first non-loopback interface, in
host-reported order, whose cumulative sent or received byte count is
nonzero; `none` when there is no such interface. -/
def auto_select_interface (table : List (String × Counters)) :
    Option String :=
  (get_available_interfaces table).find? (isActive table)

/-- A tick on which every host call succeeds and the loop runs a full
iteration: the while-condition holds, the link status is reported and is
either up or overridden by `force_monitor`, the counters are reported, the
three protocol queries return, and the sleep completes. -/
def Tick.successful (duration : ℚ) (force : Bool) (t : Tick) : Prop :=
  t.elapsed < duration ∧
  (∃ s : IfStats, t.ifStats = .ok (some s) ∧ (s.isup || force) = true) ∧
  (∃ c : Counters, t.counters = .ok (some c)) ∧
  (∃ n : ℕ, t.tcpConns = .ok n) ∧
  (∃ n : ℕ, t.udpConns = .ok n) ∧
  (∃ n : ℕ, t.icmpCount = .ok n) ∧
  t.sleep = .ok ()

/-- Unfolding of `monitor_network_traffic` past its two precondition checks:
with a positive interval and a known interface, the result is the loop's
accumulated lists together with the caught exit reason. -/
lemma monitor_unfold (iface : String) (d i : ℚ) (f : Bool)
    (stats : List (String × Counters)) (trace : List Tick) (c0 : Counters)
    (hi : 0 < i) (hc0 : lookupIface stats iface = some c0) :
    monitor_network_traffic iface d i f stats trace =
      ⟨(monitorLoop d i f c0.bytes_sent c0.bytes_recv trace).1,
        catchExit (monitorLoop d i f c0.bytes_sent c0.bytes_recv trace).2⟩ := by
  rw [monitor_network_traffic, if_neg (not_le.mpr hi), hc0]

/-- Whenever an iteration reaches the bandwidth computation (while-condition
true, link status reported and not triggering the down-break, counters
reported), the value appended to `bw_values` on that iteration is the sum of
the sent and received rates computed from the previous counters. -/
lemma monitorLoop_bw_head (d i : ℚ) (f : Bool) (ps pr : ℕ) (t : Tick)
    (s : IfStats) (c : Counters) (rest : List Tick)
    (he : t.elapsed < d) (hs : t.ifStats = .ok (some s))
    (hup : (s.isup || f) = true) (hc : t.counters = .ok (some c)) :
    (monitorLoop d i f ps pr (t :: rest)).1.bw_values.head? =
      some (sent_bw ps c.bytes_sent i + recv_bw pr c.bytes_recv i) := by
  have hb : (!s.isup && !f) = false := by
    cases hu : s.isup <;> cases hf : f <;> simp_all
  rcases h1 : t.tcpConns with e | n1
  · simp [monitorLoop, stepTick, he, hs, hb, hc, h1]
  · rcases h2 : t.udpConns with e | n2
    · simp [monitorLoop, stepTick, he, hs, hb, hc, h1, h2]
    · rcases h3 : t.icmpCount with e | n3
      · simp [monitorLoop, stepTick, he, hs, hb, hc, h1, h2, h3]
      · rcases h4 : t.sleep with e | u
        · simp [monitorLoop, stepTick, he, hs, hb, hc, h1, h2, h3, h4]
        · simp [monitorLoop, stepTick, he, hs, hb, hc, h1, h2, h3, h4]

/-- C1: for consecutive sent-byte readings `b1 ≤ b2` and a positive
interval, the per-tick sent rate equals `(b2 - b1) * 8 / (interval *
1_048_576)` and is nonnegative; the received rate is computed by the same
formula on the received counters; and the value the sampling loop appends to
its bandwidth list is the sum of the sent and received rates. -/
theorem C1_rate_formula (b1 b2 : ℕ) (interval : ℚ)
    (h12 : b1 ≤ b2) (hi : 0 < interval) :
    sent_bw b1 b2 interval = ((b2 - b1 : ℕ) : ℚ) * 8 / (interval * 1048576) ∧
    0 ≤ sent_bw b1 b2 interval ∧
    recv_bw b1 b2 interval = ((b2 - b1 : ℕ) : ℚ) * 8 / (interval * 1048576) ∧
    (∀ (d : ℚ) (f : Bool) (ps pr : ℕ) (t : Tick) (s : IfStats) (c : Counters)
      (rest : List Tick), t.elapsed < d → t.ifStats = .ok (some s) →
      (s.isup || f) = true → t.counters = .ok (some c) →
      (monitorLoop d interval f ps pr (t :: rest)).1.bw_values.head? =
        some (sent_bw ps c.bytes_sent interval +
          recv_bw pr c.bytes_recv interval)) := by
  have hsub : ((b2 - b1 : ℕ) : ℚ) = (b2 : ℚ) - (b1 : ℚ) := Nat.cast_sub h12
  have hform : sent_bw b1 b2 interval =
      ((b2 - b1 : ℕ) : ℚ) * 8 / (interval * 1048576) := by
    rw [sent_bw, hsub]
    push_cast
    ring_nf
  refine ⟨hform, ?_, ?_, ?_⟩
  · rw [hform]
    apply div_nonneg
    · positivity
    · positivity
  · rw [recv_bw, hsub]
    push_cast
    ring_nf
  · intro d f ps pr t s c rest he hs hup hc
    exact monitorLoop_bw_head d interval f ps pr t s c rest he hs hup hc

/-- C1 witness: the rate formula at `b1 = 0`, `b2 = 131072`, interval 1
(the spec's end-to-end example: 131072 bytes per 1-second tick is 1 Mbps). -/
theorem C1_rate_formula_witness :
    (0 : ℕ) ≤ 131072 ∧ (0 : ℚ) < 1 ∧
    sent_bw 0 131072 1 = ((131072 - 0 : ℕ) : ℚ) * 8 / (1 * 1048576) ∧
    0 ≤ sent_bw 0 131072 1 := by
  have h := C1_rate_formula 0 131072 1 (by norm_num) (by norm_num)
  exact ⟨by norm_num, by norm_num, h.1, h.2.1⟩

/-- C2: the code does NOT clamp a negative counter delta. With a previous
reading of 100 bytes and a current reading of 50 (counter reset), interval
1, line 137 computes `(50 - 100) * 8 / 1048576 = -25/65536`, a negative
rate, and the loop emits the negative value; the spec mandates clamping to
zero (and itself flags the source as not guarding this). -/
theorem C2_negative_rate_not_clamped :
    sent_bw 100 50 1 = -(25 / 65536 : ℚ) ∧
    sent_bw 100 50 1 < 0 ∧
    (monitorLoop 30 1 false 100 0
      [⟨0, .ok (some ⟨true⟩), .ok (some ⟨50, 0⟩), .ok 0, .ok 0, .ok 0,
        .ok ()⟩]).1.bw_values = [-(25 / 65536 : ℚ)] := by
  refine ⟨by norm_num [sent_bw], by norm_num [sent_bw], ?_⟩
  norm_num [monitorLoop, stepTick, sent_bw, recv_bw, round1, pythonRound,
    emptyLists]

/-- C4: a non-positive interval is rejected at line 92, before any
sampling: the result is the five empty lists with the invalid-interval
alert, for every duration, interface, counter table and host trace. -/
theorem C4_invalid_interval (iface : String) (d i : ℚ) (f : Bool)
    (stats : List (String × Counters)) (trace : List Tick) (hi : i ≤ 0) :
    monitor_network_traffic iface d i f stats trace =
      ⟨emptyLists, .invalidInterval⟩ := by
  rw [monitor_network_traffic, if_pos hi]

/-- C4 witness: interval 0 on a concrete call yields the empty result with
the invalid-interval failure. -/
theorem C4_invalid_interval_witness :
    (0 : ℚ) ≤ 0 ∧
    monitor_network_traffic "eth0" 30 0 false [("eth0", ⟨5, 7⟩)]
      [⟨0, .ok (some ⟨true⟩), .ok (some ⟨9, 9⟩), .ok 1, .ok 1, .ok 1,
        .ok ()⟩] = ⟨emptyLists, .invalidInterval⟩ :=
  ⟨le_refl 0, C4_invalid_interval "eth0" 30 0 false _ _ (le_refl 0)⟩

/-- C5: an interface name absent from the start-time counter table is
rejected at line 97, before any tick: the result is the five empty lists
with the interface-not-found alert. -/
theorem C5_interface_not_found (iface : String) (d i : ℚ) (f : Bool)
    (stats : List (String × Counters)) (trace : List Tick)
    (hi : 0 < i) (hfind : lookupIface stats iface = none) :
    monitor_network_traffic iface d i f stats trace =
      ⟨emptyLists, .interfaceNotFound⟩ := by
  rw [monitor_network_traffic, if_neg (not_le.mpr hi), hfind]

/-- C5 witness: asking for `wlan0` when the host reports only `eth0` fails
with interface-not-found and returns no samples. -/
theorem C5_interface_not_found_witness :
    (0 : ℚ) < 1 ∧
    lookupIface [("eth0", ⟨5, 7⟩)] "wlan0" = none ∧
    monitor_network_traffic "wlan0" 30 1 false [("eth0", ⟨5, 7⟩)]
      [⟨0, .ok (some ⟨true⟩), .ok (some ⟨9, 9⟩), .ok 1, .ok 1, .ok 1,
        .ok ()⟩] = ⟨emptyLists, .interfaceNotFound⟩ :=
  ⟨by norm_num, by decide,
    C5_interface_not_found "wlan0" 30 1 false _ _ (by norm_num) (by decide)⟩

/-- C6: with a valid interval and a known interface but `duration = 0`, the
while-condition `elapsed < 0` is false on the first check (elapsed time is
nonnegative), so the loop performs zero ticks and the call returns the five
empty lists with no failure. -/
theorem C6_zero_duration (iface : String) (i : ℚ) (f : Bool)
    (stats : List (String × Counters)) (c0 : Counters) (t : Tick)
    (rest : List Tick) (hi : 0 < i) (hc0 : lookupIface stats iface = some c0)
    (helapsed : 0 ≤ t.elapsed) :
    monitor_network_traffic iface 0 i f stats (t :: rest) =
      ⟨emptyLists, .durationReached⟩ := by
  rw [monitor_unfold iface 0 i f stats (t :: rest) c0 hi hc0]
  have hnot : ¬ t.elapsed < 0 := not_lt.mpr helapsed
  simp [monitorLoop, stepTick, hnot, catchExit]

/-- C6 witness: duration 0 on a concrete call with interface present and a
host tick available produces the empty result with a normal stop. -/
theorem C6_zero_duration_witness :
    (0 : ℚ) < 1 ∧
    lookupIface [("eth0", ⟨5, 7⟩)] "eth0" = some ⟨5, 7⟩ ∧
    monitor_network_traffic "eth0" 0 1 false [("eth0", ⟨5, 7⟩)]
      [⟨0, .ok (some ⟨true⟩), .ok (some ⟨9, 9⟩), .ok 1, .ok 1, .ok 1,
        .ok ()⟩] = ⟨emptyLists, .durationReached⟩ :=
  ⟨by norm_num, by decide,
    C6_zero_duration "eth0" 1 false _ ⟨5, 7⟩ _ _ (by norm_num) (by decide)
      (by norm_num)⟩

/-- The counters an `isActive` check sees come from the table: whatever
`lookupIface` returns is the second component of some entry of the table. -/
lemma lookupIface_mem (table : List (String × Counters)) (name : String)
    (c : Counters) (h : lookupIface table name = some c) :
    ∃ p ∈ table, p.2 = c := by
  rw [lookupIface, Option.map_eq_some'] at h
  obtain ⟨p, hp, hpc⟩ := h
  exact ⟨p, List.mem_of_find?_eq_some hp, hpc⟩

/-- C7: `auto_select_interface` returns the first non-loopback interface,
in host-reported order, whose condition on line 40 holds (nonzero sent or
received counter); it returns none when every table entry has both counters
zero; and on the table `{eth0: (0,0), eth1: (100,50), eth2: (0,0)}` it
returns `eth1`. -/
theorem C7_auto_select_first_active :
    auto_select_interface
      [("eth0", ⟨0, 0⟩), ("eth1", ⟨100, 50⟩), ("eth2", ⟨0, 0⟩)] =
        some "eth1" ∧
    (∀ table : List (String × Counters),
      (∀ p ∈ table, p.2.bytes_sent = 0 ∧ p.2.bytes_recv = 0) →
      auto_select_interface table = none) ∧
    (∀ (table : List (String × Counters)) (l₁ : List String) (i : String)
      (l₂ : List String), get_available_interfaces table = l₁ ++ i :: l₂ →
      (∀ j ∈ l₁, isActive table j = false) → isActive table i = true →
      auto_select_interface table = some i) := by
  refine ⟨by decide, ?_, ?_⟩
  · intro table h
    rw [auto_select_interface, List.find?_eq_none]
    intro x _
    intro hx
    rw [isActive] at hx
    rcases hl : lookupIface table x with _ | stats
    · rw [hl] at hx
      exact Bool.false_ne_true hx
    · rw [hl] at hx
      obtain ⟨p, hp, hpc⟩ := lookupIface_mem table x stats hl
      obtain ⟨hz1, hz2⟩ := h p hp
      rw [hpc] at hz1 hz2
      simp [hz1, hz2] at hx
  · intro table l₁ i l₂ hsplit hnone hact
    rw [auto_select_interface, hsplit, List.find?_append]
    have h1 : l₁.find? (isActive table) = none := by
      rw [List.find?_eq_none]
      intro x hx
      rw [hnone x hx]
      exact Bool.false_ne_true
    rw [h1, List.find?_cons_of_pos _ hact]
    rfl

/-- C7 witness: the none-case hypothesis discharged on a concrete all-zero
table, and the first-match clause discharged on the spec's example table. -/
theorem C7_auto_select_first_active_witness :
    ((∀ p ∈ ([("eth0", (⟨0, 0⟩ : Counters))]), p.2.bytes_sent = 0 ∧
      p.2.bytes_recv = 0) ∧
    auto_select_interface [("eth0", ⟨0, 0⟩)] = none) ∧
    (get_available_interfaces
      [("eth0", ⟨0, 0⟩), ("eth1", ⟨100, 50⟩), ("eth2", ⟨0, 0⟩)] =
        ["eth0"] ++ "eth1" :: ["eth2"] ∧
    auto_select_interface
      [("eth0", ⟨0, 0⟩), ("eth1", ⟨100, 50⟩), ("eth2", ⟨0, 0⟩)] =
        some "eth1") := by
  constructor
  · exact ⟨by decide, C7_auto_select_first_active.2.1 _ (by decide)⟩
  · exact ⟨by decide, C7_auto_select_first_active.2.2 _ ["eth0"] "eth1"
      ["eth2"] (by decide) (by decide) (by decide)⟩

/-- Shape of any halting iteration: the partial entries appended before the
loop was left keep the time list at most one ahead of the bandwidth list
(exactly one ahead on the counters-unavailable break), every list gains at
most one entry, and the halt is never the trace-ended artefact. -/
lemma stepTick_halt_shape (d i : ℚ) (f : Bool) (ps pr : ℕ) (t : Tick)
    (ls : TrafficLists) (ex : LoopExit)
    (hstep : stepTick d i f ps pr t = .halt ls ex) :
    (ex = .brokeCountersUnavailable →
      ls.time_values.length = ls.bw_values.length + 1) ∧
    ((ex = .normal ∨ ex = .brokeVanished ∨ ex = .brokeLinkDown) →
      ls.time_values.length = ls.bw_values.length) ∧
    ls.bw_values.length ≤ ls.time_values.length ∧
    ls.time_values.length ≤ ls.bw_values.length + 1 ∧
    ls.time_values.length ≤ 1 ∧ ls.bw_values.length ≤ 1 ∧
    ls.tcp_values.length ≤ 1 ∧ ls.udp_values.length ≤ 1 ∧
    ls.icmp_values.length ≤ 1 ∧
    ex ≠ .traceEnded := by
  unfold stepTick at hstep
  repeat' split at hstep
  all_goals try (injection hstep with hl hx
                 subst hl
                 subst hx)
  all_goals try injection hstep
  all_goals simp [emptyLists]

/-- The loop consumes at most one trace entry per appended element: every
accumulated list is no longer than the host trace. -/
lemma monitorLoop_length_le (d i : ℚ) (f : Bool) :
    ∀ (trace : List Tick) (ps pr : ℕ),
      (monitorLoop d i f ps pr trace).1.time_values.length ≤ trace.length ∧
      (monitorLoop d i f ps pr trace).1.bw_values.length ≤ trace.length ∧
      (monitorLoop d i f ps pr trace).1.tcp_values.length ≤ trace.length ∧
      (monitorLoop d i f ps pr trace).1.udp_values.length ≤ trace.length ∧
      (monitorLoop d i f ps pr trace).1.icmp_values.length ≤ trace.length := by
  intro trace
  induction trace with
  | nil => intro ps pr; simp [monitorLoop, emptyLists]
  | cons t rest ih =>
    intro ps pr
    cases hstep : stepTick d i f ps pr t with
    | halt ls ex =>
      obtain ⟨-, -, -, -, h1, h2, h3, h4, h5, -⟩ :=
        stepTick_halt_shape d i f ps pr t ls ex hstep
      simp only [monitorLoop, hstep, List.length_cons]
      exact ⟨h1.trans (by omega), h2.trans (by omega), h3.trans (by omega),
        h4.trans (by omega), h5.trans (by omega)⟩
    | cont tv total n1 n2 n3 ns nr =>
      obtain ⟨h1, h2, h3, h4, h5⟩ := ih ns nr
      simp only [monitorLoop, hstep, List.length_cons]
      exact ⟨by omega, by omega, by omega, by omega, by omega⟩

/-- A fully successful tick runs the whole loop body: `stepTick` continues
with that tick's time entry, total bandwidth, protocol counts, and the
tick's counters as the new previous counters. -/
lemma stepTick_successful (d i : ℚ) (f : Bool) (ps pr : ℕ) (t : Tick)
    (h : t.successful d f) :
    ∃ (c : Counters) (n1 n2 n3 : ℕ),
      t.counters = .ok (some c) ∧
      stepTick d i f ps pr t = .cont (round1 t.elapsed)
        (sent_bw ps c.bytes_sent i + recv_bw pr c.bytes_recv i)
        n1 n2 n3 c.bytes_sent c.bytes_recv := by
  obtain ⟨he, ⟨s, hs, hup⟩, ⟨c, hc⟩, ⟨n1, h1⟩, ⟨n2, h2⟩, ⟨n3, h3⟩, hsl⟩ := h
  have hb : (!s.isup && !f) = false := by
    cases hu : s.isup <;> cases hf : f <;> simp_all
  exact ⟨c, n1, n2, n3, hc,
    by simp [stepTick, he, hs, hb, hc, h1, h2, h3, hsl]⟩

/-- Running the loop over a block of fully successful ticks followed by any
continuation: the block contributes exactly one entry to each list per tick,
and the exit is the continuation's exit (from some previous-counter state
reached after the block). -/
lemma monitorLoop_ok_append (d i : ℚ) (f : Bool) :
    ∀ (ts : List Tick) (ps pr : ℕ),
      (∀ t ∈ ts, t.successful d f) →
      ∀ ts' : List Tick, ∃ ps' pr' : ℕ,
        (monitorLoop d i f ps pr (ts ++ ts')).2 =
          (monitorLoop d i f ps' pr' ts').2 ∧
        (monitorLoop d i f ps pr (ts ++ ts')).1.time_values.length =
          ts.length + (monitorLoop d i f ps' pr' ts').1.time_values.length ∧
        (monitorLoop d i f ps pr (ts ++ ts')).1.bw_values.length =
          ts.length + (monitorLoop d i f ps' pr' ts').1.bw_values.length ∧
        (monitorLoop d i f ps pr (ts ++ ts')).1.tcp_values.length =
          ts.length + (monitorLoop d i f ps' pr' ts').1.tcp_values.length ∧
        (monitorLoop d i f ps pr (ts ++ ts')).1.udp_values.length =
          ts.length + (monitorLoop d i f ps' pr' ts').1.udp_values.length ∧
        (monitorLoop d i f ps pr (ts ++ ts')).1.icmp_values.length =
          ts.length + (monitorLoop d i f ps' pr' ts').1.icmp_values.length := by
  intro ts
  induction ts with
  | nil =>
    intro ps pr _ ts'
    exact ⟨ps, pr, rfl, by simp, by simp, by simp, by simp, by simp⟩
  | cons t ts ih =>
    intro ps pr h ts'
    obtain ⟨c, n1, n2, n3, -, hstep⟩ :=
      stepTick_successful d i f ps pr t (h t (List.mem_cons_self t ts))
    obtain ⟨ps', pr', hex, ht, hbw, htcp, hudp, hicmp⟩ :=
      ih c.bytes_sent c.bytes_recv
        (fun x hx => h x (List.mem_cons_of_mem t hx)) ts'
    have hfull : monitorLoop d i f ps pr ((t :: ts) ++ ts') =
        (⟨round1 t.elapsed ::
            (monitorLoop d i f c.bytes_sent c.bytes_recv
              (ts ++ ts')).1.time_values,
          (sent_bw ps c.bytes_sent i + recv_bw pr c.bytes_recv i) ::
            (monitorLoop d i f c.bytes_sent c.bytes_recv
              (ts ++ ts')).1.bw_values,
          n1 :: (monitorLoop d i f c.bytes_sent c.bytes_recv
              (ts ++ ts')).1.tcp_values,
          n2 :: (monitorLoop d i f c.bytes_sent c.bytes_recv
              (ts ++ ts')).1.udp_values,
          n3 :: (monitorLoop d i f c.bytes_sent c.bytes_recv
              (ts ++ ts')).1.icmp_values⟩,
         (monitorLoop d i f c.bytes_sent c.bytes_recv (ts ++ ts')).2) := by
      simp only [List.cons_append, monitorLoop, hstep]
      try rfl
    refine ⟨ps', pr', ?_, ?_, ?_, ?_, ?_, ?_⟩ <;>
      rw [hfull] <;> simp only [List.length_cons]
    · exact hex
    · omega
    · omega
    · omega
    · omega
    · omega

/-- After a block of successful ticks, a tick on which the loop halts with
known per-list entry counts: the session returns the block's samples plus
the halting iteration's partial entries, with the halt's reason. -/
lemma monitor_halt_at (iface : String) (d i : ℚ) (f : Bool)
    (stats : List (String × Counters)) (c0 : Counters)
    (ts : List Tick) (t : Tick) (rest : List Tick) (ex : LoopExit)
    (a b e g k : ℕ)
    (hi : 0 < i) (hc0 : lookupIface stats iface = some c0)
    (hts : ∀ x ∈ ts, x.successful d f)
    (hshape : ∀ ps pr : ℕ, ∃ ls : TrafficLists,
      stepTick d i f ps pr t = .halt ls ex ∧
      ls.time_values.length = a ∧ ls.bw_values.length = b ∧
      ls.tcp_values.length = e ∧ ls.udp_values.length = g ∧
      ls.icmp_values.length = k) :
    (monitor_network_traffic iface d i f stats
      (ts ++ t :: rest)).reason = catchExit ex ∧
    (monitor_network_traffic iface d i f stats
      (ts ++ t :: rest)).lists.time_values.length = ts.length + a ∧
    (monitor_network_traffic iface d i f stats
      (ts ++ t :: rest)).lists.bw_values.length = ts.length + b ∧
    (monitor_network_traffic iface d i f stats
      (ts ++ t :: rest)).lists.tcp_values.length = ts.length + e ∧
    (monitor_network_traffic iface d i f stats
      (ts ++ t :: rest)).lists.udp_values.length = ts.length + g ∧
    (monitor_network_traffic iface d i f stats
      (ts ++ t :: rest)).lists.icmp_values.length = ts.length + k := by
  rw [monitor_unfold iface d i f stats (ts ++ t :: rest) c0 hi hc0]
  obtain ⟨ps', pr', hex, ht, hbw, htcp, hudp, hicmp⟩ :=
    monitorLoop_ok_append d i f ts c0.bytes_sent c0.bytes_recv hts
      (t :: rest)
  obtain ⟨ls, hstep, la, lb, lc, ld, le⟩ := hshape ps' pr'
  have hsuffix : monitorLoop d i f ps' pr' (t :: rest) = (ls, ex) := by
    simp only [monitorLoop, hstep]
  rw [hsuffix] at hex ht hbw htcp hudp hicmp
  refine ⟨?_, ?_, ?_, ?_, ?_, ?_⟩
  · simp only [hex]
  · simp only [ht, la]
  · simp only [hbw, lb]
  · simp only [htcp, lc]
  · simp only [hudp, ld]
  · simp only [hicmp, le]

/-- C3: with `forceMonitor` false, when the host reports the link down on a
tick (after any number of fully successful ticks), the loop breaks at line
120: the session ends at that tick with the link-down stop (not an
exception), returning exactly the samples of the preceding ticks. -/
theorem C3_link_down_graceful_stop (iface : String) (d i : ℚ)
    (stats : List (String × Counters)) (c0 : Counters)
    (ts : List Tick) (t : Tick) (rest : List Tick)
    (hi : 0 < i) (hc0 : lookupIface stats iface = some c0)
    (hts : ∀ x ∈ ts, x.successful d false)
    (he : t.elapsed < d) (hdown : t.ifStats = .ok (some ⟨false⟩)) :
    (monitor_network_traffic iface d i false stats
      (ts ++ t :: rest)).reason = .linkDown ∧
    (monitor_network_traffic iface d i false stats
      (ts ++ t :: rest)).lists.time_values.length = ts.length ∧
    (monitor_network_traffic iface d i false stats
      (ts ++ t :: rest)).lists.bw_values.length = ts.length ∧
    (monitor_network_traffic iface d i false stats
      (ts ++ t :: rest)).lists.tcp_values.length = ts.length ∧
    (monitor_network_traffic iface d i false stats
      (ts ++ t :: rest)).lists.udp_values.length = ts.length ∧
    (monitor_network_traffic iface d i false stats
      (ts ++ t :: rest)).lists.icmp_values.length = ts.length := by
  have h := monitor_halt_at iface d i false stats c0 ts t rest
    .brokeLinkDown 0 0 0 0 0 hi hc0 hts
    (fun ps pr => ⟨emptyLists, by simp [stepTick, he, hdown], rfl, rfl,
      rfl, rfl, rfl⟩)
  simpa using h

/-- C3 witness: one successful tick, then a tick reporting the link down;
the session returns exactly the one collected sample and stops with the
link-down reason. -/
theorem C3_link_down_graceful_stop_witness :
    (monitor_network_traffic "eth0" 30 1 false [("eth0", ⟨5, 7⟩)]
      ([⟨0, .ok (some ⟨true⟩), .ok (some ⟨9, 9⟩), .ok 2, .ok 3, .ok 0,
          .ok ()⟩] ++
        ⟨1, .ok (some ⟨false⟩), .ok (some ⟨9, 9⟩), .ok 2, .ok 3, .ok 0,
          .ok ()⟩ ::
        [])).reason = .linkDown ∧
    (monitor_network_traffic "eth0" 30 1 false [("eth0", ⟨5, 7⟩)]
      ([⟨0, .ok (some ⟨true⟩), .ok (some ⟨9, 9⟩), .ok 2, .ok 3, .ok 0,
          .ok ()⟩] ++
        ⟨1, .ok (some ⟨false⟩), .ok (some ⟨9, 9⟩), .ok 2, .ok 3, .ok 0,
          .ok ()⟩ ::
        [])).lists.time_values.length = 1 := by
  have h := C3_link_down_graceful_stop "eth0" 30 1 [("eth0", ⟨5, 7⟩)]
    ⟨5, 7⟩
    [⟨0, .ok (some ⟨true⟩), .ok (some ⟨9, 9⟩), .ok 2, .ok 3, .ok 0, .ok ()⟩]
    ⟨1, .ok (some ⟨false⟩), .ok (some ⟨9, 9⟩), .ok 2, .ok 3, .ok 0, .ok ()⟩
    [] (by norm_num) (by decide)
    (by
      intro x hx
      simp only [List.mem_singleton] at hx
      subst hx
      exact ⟨by norm_num, ⟨⟨true⟩, rfl, rfl⟩, ⟨⟨9, 9⟩, rfl⟩, ⟨2, rfl⟩,
        ⟨3, rfl⟩, ⟨0, rfl⟩, rfl⟩)
    (by norm_num) rfl
  exact ⟨h.1, h.2.1⟩

/-- C8: a keyboard interrupt observed at any host-call point of the loop is
caught by the `except KeyboardInterrupt` handler and the session returns
every sample collected up to that point: after `k` fully successful ticks,
an interrupt at the link-status query, the counter query, any of the three
protocol queries, or the sleep returns lists holding exactly the `k`
collected entries plus whatever the interrupted iteration had already
appended; nothing is discarded. -/
theorem C8_interrupt_keeps_collected (iface : String) (d i : ℚ) (f : Bool)
    (stats : List (String × Counters)) (c0 : Counters)
    (ts : List Tick) (t : Tick) (rest : List Tick) (r : MonitorResult)
    (hi : 0 < i) (hc0 : lookupIface stats iface = some c0)
    (hts : ∀ x ∈ ts, x.successful d f) (he : t.elapsed < d)
    (hr : r = monitor_network_traffic iface d i f stats (ts ++ t :: rest)) :
    (t.ifStats = .error .keyboardInterrupt →
      r.reason = .caughtKeyboardInterrupt ∧
      r.lists.time_values.length = ts.length ∧
      r.lists.bw_values.length = ts.length ∧
      r.lists.tcp_values.length = ts.length ∧
      r.lists.udp_values.length = ts.length ∧
      r.lists.icmp_values.length = ts.length) ∧
    (∀ s : IfStats, t.ifStats = .ok (some s) → (s.isup || f) = true →
      t.counters = .error .keyboardInterrupt →
      r.reason = .caughtKeyboardInterrupt ∧
      r.lists.time_values.length = ts.length + 1 ∧
      r.lists.bw_values.length = ts.length ∧
      r.lists.tcp_values.length = ts.length ∧
      r.lists.udp_values.length = ts.length ∧
      r.lists.icmp_values.length = ts.length) ∧
    (∀ (s : IfStats) (c : Counters), t.ifStats = .ok (some s) →
      (s.isup || f) = true → t.counters = .ok (some c) →
      t.tcpConns = .error .keyboardInterrupt →
      r.reason = .caughtKeyboardInterrupt ∧
      r.lists.time_values.length = ts.length + 1 ∧
      r.lists.bw_values.length = ts.length + 1 ∧
      r.lists.tcp_values.length = ts.length ∧
      r.lists.udp_values.length = ts.length ∧
      r.lists.icmp_values.length = ts.length) ∧
    (∀ (s : IfStats) (c : Counters) (n1 : ℕ), t.ifStats = .ok (some s) →
      (s.isup || f) = true → t.counters = .ok (some c) →
      t.tcpConns = .ok n1 → t.udpConns = .error .keyboardInterrupt →
      r.reason = .caughtKeyboardInterrupt ∧
      r.lists.time_values.length = ts.length + 1 ∧
      r.lists.bw_values.length = ts.length + 1 ∧
      r.lists.tcp_values.length = ts.length ∧
      r.lists.udp_values.length = ts.length ∧
      r.lists.icmp_values.length = ts.length) ∧
    (∀ (s : IfStats) (c : Counters) (n1 n2 : ℕ), t.ifStats = .ok (some s) →
      (s.isup || f) = true → t.counters = .ok (some c) →
      t.tcpConns = .ok n1 → t.udpConns = .ok n2 →
      t.icmpCount = .error .keyboardInterrupt →
      r.reason = .caughtKeyboardInterrupt ∧
      r.lists.time_values.length = ts.length + 1 ∧
      r.lists.bw_values.length = ts.length + 1 ∧
      r.lists.tcp_values.length = ts.length ∧
      r.lists.udp_values.length = ts.length ∧
      r.lists.icmp_values.length = ts.length) ∧
    (∀ (s : IfStats) (c : Counters) (n1 n2 n3 : ℕ),
      t.ifStats = .ok (some s) → (s.isup || f) = true →
      t.counters = .ok (some c) → t.tcpConns = .ok n1 →
      t.udpConns = .ok n2 → t.icmpCount = .ok n3 →
      t.sleep = .error .keyboardInterrupt →
      r.reason = .caughtKeyboardInterrupt ∧
      r.lists.time_values.length = ts.length + 1 ∧
      r.lists.bw_values.length = ts.length + 1 ∧
      r.lists.tcp_values.length = ts.length + 1 ∧
      r.lists.udp_values.length = ts.length + 1 ∧
      r.lists.icmp_values.length = ts.length + 1) := by
  subst hr
  refine ⟨?_, ?_, ?_, ?_, ?_, ?_⟩
  · intro h1
    have h := monitor_halt_at iface d i f stats c0 ts t rest
      (.raised .keyboardInterrupt) 0 0 0 0 0 hi hc0 hts
      (fun ps pr => ⟨emptyLists, by simp [stepTick, he, h1], rfl, rfl, rfl,
        rfl, rfl⟩)
    simpa using h
  · intro s hs hup h1
    have hb : (!s.isup && !f) = false := by
      cases hu : s.isup <;> cases hf : f <;> simp_all
    have h := monitor_halt_at iface d i f stats c0 ts t rest
      (.raised .keyboardInterrupt) 1 0 0 0 0 hi hc0 hts
      (fun ps pr => ⟨⟨[round1 t.elapsed], [], [], [], []⟩,
        by simp [stepTick, he, hs, hb, h1], rfl, rfl, rfl, rfl, rfl⟩)
    simpa using h
  · intro s c hs hup hc h1
    have hb : (!s.isup && !f) = false := by
      cases hu : s.isup <;> cases hf : f <;> simp_all
    have h := monitor_halt_at iface d i f stats c0 ts t rest
      (.raised .keyboardInterrupt) 1 1 0 0 0 hi hc0 hts
      (fun ps pr => ⟨⟨[round1 t.elapsed],
        [sent_bw ps c.bytes_sent i + recv_bw pr c.bytes_recv i],
        [], [], []⟩,
        by simp [stepTick, he, hs, hb, hc, h1], rfl, rfl, rfl, rfl, rfl⟩)
    simpa using h
  · intro s c n1 hs hup hc h1 h2
    have hb : (!s.isup && !f) = false := by
      cases hu : s.isup <;> cases hf : f <;> simp_all
    have h := monitor_halt_at iface d i f stats c0 ts t rest
      (.raised .keyboardInterrupt) 1 1 0 0 0 hi hc0 hts
      (fun ps pr => ⟨⟨[round1 t.elapsed],
        [sent_bw ps c.bytes_sent i + recv_bw pr c.bytes_recv i],
        [], [], []⟩,
        by simp [stepTick, he, hs, hb, hc, h1, h2], rfl, rfl, rfl, rfl, rfl⟩)
    simpa using h
  · intro s c n1 n2 hs hup hc h1 h2 h3
    have hb : (!s.isup && !f) = false := by
      cases hu : s.isup <;> cases hf : f <;> simp_all
    have h := monitor_halt_at iface d i f stats c0 ts t rest
      (.raised .keyboardInterrupt) 1 1 0 0 0 hi hc0 hts
      (fun ps pr => ⟨⟨[round1 t.elapsed],
        [sent_bw ps c.bytes_sent i + recv_bw pr c.bytes_recv i],
        [], [], []⟩,
        by simp [stepTick, he, hs, hb, hc, h1, h2, h3], rfl, rfl, rfl, rfl,
          rfl⟩)
    simpa using h
  · intro s c n1 n2 n3 hs hup hc h1 h2 h3 h4
    have hb : (!s.isup && !f) = false := by
      cases hu : s.isup <;> cases hf : f <;> simp_all
    have h := monitor_halt_at iface d i f stats c0 ts t rest
      (.raised .keyboardInterrupt) 1 1 1 1 1 hi hc0 hts
      (fun ps pr => ⟨⟨[round1 t.elapsed],
        [sent_bw ps c.bytes_sent i + recv_bw pr c.bytes_recv i],
        [n1], [n2], [n3]⟩,
        by simp [stepTick, he, hs, hb, hc, h1, h2, h3, h4], rfl, rfl, rfl,
          rfl, rfl⟩)
    simpa using h

/-- C8 witness: after one successful tick, a keyboard interrupt during the
sleep returns the one full sample (all five lists of length one) with the
caught-interrupt reason. -/
theorem C8_interrupt_keeps_collected_witness :
    (monitor_network_traffic "eth0" 30 1 false [("eth0", ⟨5, 7⟩)]
      ([⟨0, .ok (some ⟨true⟩), .ok (some ⟨9, 9⟩), .ok 2, .ok 3, .ok 0,
          .ok ()⟩] ++
        ⟨1, .ok (some ⟨true⟩), .ok (some ⟨20, 30⟩), .ok 2, .ok 3, .ok 0,
          .error .keyboardInterrupt⟩ :: [])).reason =
      .caughtKeyboardInterrupt ∧
    (monitor_network_traffic "eth0" 30 1 false [("eth0", ⟨5, 7⟩)]
      ([⟨0, .ok (some ⟨true⟩), .ok (some ⟨9, 9⟩), .ok 2, .ok 3, .ok 0,
          .ok ()⟩] ++
        ⟨1, .ok (some ⟨true⟩), .ok (some ⟨20, 30⟩), .ok 2, .ok 3, .ok 0,
          .error .keyboardInterrupt⟩ :: [])).lists.time_values.length =
      1 + 1 := by
  have h := (C8_interrupt_keeps_collected "eth0" 30 1 false
    [("eth0", ⟨5, 7⟩)] ⟨5, 7⟩
    [⟨0, .ok (some ⟨true⟩), .ok (some ⟨9, 9⟩), .ok 2, .ok 3, .ok 0, .ok ()⟩]
    ⟨1, .ok (some ⟨true⟩), .ok (some ⟨20, 30⟩), .ok 2, .ok 3, .ok 0,
      .error .keyboardInterrupt⟩
    [] _ (by norm_num) (by decide)
    (by
      intro x hx
      simp only [List.mem_singleton] at hx
      subst hx
      exact ⟨by norm_num, ⟨⟨true⟩, rfl, rfl⟩, ⟨⟨9, 9⟩, rfl⟩, ⟨2, rfl⟩,
        ⟨3, rfl⟩, ⟨0, rfl⟩, rfl⟩)
    (by norm_num) rfl).2.2.2.2.2 ⟨true⟩ ⟨20, 30⟩ 2 3 0 rfl rfl rfl rfl rfl
    rfl rfl
  exact ⟨h.1, h.2.1⟩

/-- Loop-level time/bandwidth length invariant: the counters-unavailable
break leaves the time list exactly one ahead (the elapsed entry of line 122
is appended before the counter query of line 124); the normal exits leave
them equal; in every case the time list is the bandwidth list's length or
one more. -/
lemma monitorLoop_time_bw (d i : ℚ) (f : Bool) :
    ∀ (trace : List Tick) (ps pr : ℕ),
      ((monitorLoop d i f ps pr trace).2 = .brokeCountersUnavailable →
        (monitorLoop d i f ps pr trace).1.time_values.length =
          (monitorLoop d i f ps pr trace).1.bw_values.length + 1) ∧
      ((monitorLoop d i f ps pr trace).2 = .normal ∨
        (monitorLoop d i f ps pr trace).2 = .brokeVanished ∨
        (monitorLoop d i f ps pr trace).2 = .brokeLinkDown ∨
        (monitorLoop d i f ps pr trace).2 = .traceEnded →
        (monitorLoop d i f ps pr trace).1.time_values.length =
          (monitorLoop d i f ps pr trace).1.bw_values.length) ∧
      (monitorLoop d i f ps pr trace).1.bw_values.length ≤
        (monitorLoop d i f ps pr trace).1.time_values.length ∧
      (monitorLoop d i f ps pr trace).1.time_values.length ≤
        (monitorLoop d i f ps pr trace).1.bw_values.length + 1 := by
  intro trace
  induction trace with
  | nil => intro ps pr; simp [monitorLoop, emptyLists]
  | cons t rest ih =>
    intro ps pr
    cases hstep : stepTick d i f ps pr t with
    | halt ls ex =>
      obtain ⟨s1, s2, s3, s4, -, -, -, -, -, sne⟩ :=
        stepTick_halt_shape d i f ps pr t ls ex hstep
      simp only [monitorLoop, hstep]
      refine ⟨s1, fun hor => ?_, s3, s4⟩
      rcases hor with h | h | h | h
      · exact s2 (Or.inl h)
      · exact s2 (Or.inr (Or.inl h))
      · exact s2 (Or.inr (Or.inr h))
      · exact absurd h sne
    | cont tv total n1 n2 n3 ns nr =>
      obtain ⟨i1, i2, i3, i4⟩ := ih ns nr
      simp only [monitorLoop, hstep, List.length_cons]
      refine ⟨fun h => ?_, fun h => ?_, by omega, by omega⟩
      · have := i1 h
        omega
      · have := i2 h
        omega

/-- C9 counterexample: the claim says every termination other than the
counters-unavailable break leaves the time and bandwidth lists equally
long.  But when the counter query itself raises an exception (line 124
raising instead of returning nothing), the elapsed entry of line 122 is
already appended, the handler catches the exception, and the session
returns a time list of length 1 against an empty bandwidth list — a
termination that is not `CountersUnavailable` yet has unequal lengths. -/
theorem C9_counterexample :
    (monitor_network_traffic "eth0" 30 1 false [("eth0", ⟨0, 0⟩)]
      [⟨0, .ok (some ⟨true⟩), .error .generalException, .ok 0, .ok 0, .ok 0,
        .ok ()⟩]).reason ≠ .countersUnavailable ∧
    (monitor_network_traffic "eth0" 30 1 false [("eth0", ⟨0, 0⟩)]
      [⟨0, .ok (some ⟨true⟩), .error .generalException, .ok 0, .ok 0, .ok 0,
        .ok ()⟩]).lists.time_values.length = 1 ∧
    (monitor_network_traffic "eth0" 30 1 false [("eth0", ⟨0, 0⟩)]
      [⟨0, .ok (some ⟨true⟩), .error .generalException, .ok 0, .ok 0, .ok 0,
        .ok ()⟩]).lists.bw_values.length = 0 := by
  decide

/-- C9 (amended): a session ending with the counters-unavailable break
returns a time list exactly one longer than the bandwidth list; a session
ending because the duration elapsed, the interface vanished, the link went
down, the configuration was rejected, or the trace ran out returns them
equally long; and in every session — including those ended by a caught
exception or interrupt, which may also strike between the two appends — the
time list is the bandwidth list's length or that length plus one. -/
theorem C9_time_bw_lengths (iface : String) (d i : ℚ) (f : Bool)
    (stats : List (String × Counters)) (trace : List Tick)
    (r : MonitorResult)
    (hr : r = monitor_network_traffic iface d i f stats trace) :
    (r.reason = .countersUnavailable →
      r.lists.time_values.length = r.lists.bw_values.length + 1) ∧
    (r.reason = .durationReached ∨ r.reason = .interfaceVanished ∨
      r.reason = .linkDown ∨ r.reason = .invalidInterval ∨
      r.reason = .interfaceNotFound ∨ r.reason = .traceEnded →
      r.lists.time_values.length = r.lists.bw_values.length) ∧
    r.lists.bw_values.length ≤ r.lists.time_values.length ∧
    r.lists.time_values.length ≤ r.lists.bw_values.length + 1 := by
  subst hr
  rw [monitor_network_traffic]
  by_cases hi : i ≤ 0
  · simp [hi, emptyLists]
  · rcases hc : lookupIface stats iface with _ | c0
    · simp [hi, hc, emptyLists]
    · simp only [hi, if_false, hc]
      obtain ⟨i1, i2, i3, i4⟩ := monitorLoop_time_bw d i f trace
        c0.bytes_sent c0.bytes_recv
      refine ⟨?_, ?_, i3, i4⟩
      · intro h
        rcases hex : (monitorLoop d i f c0.bytes_sent c0.bytes_recv
            trace).2 with _ | _ | _ | _ | e | _
        all_goals rw [hex] at h
        all_goals simp only [catchExit] at h
        · exact StopReason.noConfusion h
        · exact StopReason.noConfusion h
        · exact StopReason.noConfusion h
        · exact i1 hex
        · cases e
          all_goals simp only [catchExit] at h
          all_goals exact StopReason.noConfusion h
        · exact StopReason.noConfusion h
      · intro h
        rcases hex : (monitorLoop d i f c0.bytes_sent c0.bytes_recv
            trace).2 with _ | _ | _ | _ | e | _
        all_goals rw [hex] at h
        all_goals simp only [catchExit] at h
        · exact i2 (Or.inl hex)
        · exact i2 (Or.inr (Or.inl hex))
        · exact i2 (Or.inr (Or.inr (Or.inl hex)))
        · rcases h with h | h | h | h | h | h
          all_goals exact StopReason.noConfusion h
        · cases e
          all_goals simp only [catchExit] at h
          all_goals rcases h with h | h | h | h | h | h
          all_goals exact StopReason.noConfusion h
        · exact i2 (Or.inr (Or.inr (Or.inr hex)))

/-- C9 witness: a counters-unavailable break after one successful tick
returns a time list of length 2 and a bandwidth list of length 1. -/
theorem C9_time_bw_lengths_witness :
    (monitor_network_traffic "eth0" 30 1 false [("eth0", ⟨5, 7⟩)]
      [⟨0, .ok (some ⟨true⟩), .ok (some ⟨9, 9⟩), .ok 2, .ok 3, .ok 0,
        .ok ()⟩,
       ⟨1, .ok (some ⟨true⟩), .ok none, .ok 0, .ok 0, .ok 0,
        .ok ()⟩]).lists.time_values.length =
      (monitor_network_traffic "eth0" 30 1 false [("eth0", ⟨5, 7⟩)]
        [⟨0, .ok (some ⟨true⟩), .ok (some ⟨9, 9⟩), .ok 2, .ok 3, .ok 0,
          .ok ()⟩,
         ⟨1, .ok (some ⟨true⟩), .ok none, .ok 0, .ok 0, .ok 0,
          .ok ()⟩]).lists.bw_values.length + 1 :=
  (C9_time_bw_lengths "eth0" 30 1 false [("eth0", ⟨5, 7⟩)]
    [⟨0, .ok (some ⟨true⟩), .ok (some ⟨9, 9⟩), .ok 2, .ok 3, .ok 0, .ok ()⟩,
     ⟨1, .ok (some ⟨true⟩), .ok none, .ok 0, .ok 0, .ok 0, .ok ()⟩]
    _ rfl).1 (by decide)

/-- C10: no exception escapes `monitor_network_traffic`.  Past the two
precondition checks, the function returns exactly the loop's accumulated
five lists whatever the host trace contains; whenever the loop body raised,
the reason is one of the two caught handlers (`KeyboardInterrupt` or
`Exception`); and each accumulated list is bounded by the trace, one entry
per tick. -/
theorem C10_always_returns_lists (iface : String) (d i : ℚ) (f : Bool)
    (stats : List (String × Counters)) (trace : List Tick) (c0 : Counters)
    (hi : 0 < i) (hc0 : lookupIface stats iface = some c0) :
    monitor_network_traffic iface d i f stats trace =
      ⟨(monitorLoop d i f c0.bytes_sent c0.bytes_recv trace).1,
        catchExit (monitorLoop d i f c0.bytes_sent c0.bytes_recv trace).2⟩ ∧
    (∀ e : PyExc,
      (monitorLoop d i f c0.bytes_sent c0.bytes_recv trace).2 = .raised e →
      (monitor_network_traffic iface d i f stats trace).reason =
          .caughtKeyboardInterrupt ∨
        (monitor_network_traffic iface d i f stats trace).reason =
          .caughtException) ∧
    (monitor_network_traffic iface d i f stats
      trace).lists.time_values.length ≤ trace.length ∧
    (monitor_network_traffic iface d i f stats
      trace).lists.bw_values.length ≤ trace.length ∧
    (monitor_network_traffic iface d i f stats
      trace).lists.tcp_values.length ≤ trace.length ∧
    (monitor_network_traffic iface d i f stats
      trace).lists.udp_values.length ≤ trace.length ∧
    (monitor_network_traffic iface d i f stats
      trace).lists.icmp_values.length ≤ trace.length := by
  have hm := monitor_unfold iface d i f stats trace c0 hi hc0
  obtain ⟨l1, l2, l3, l4, l5⟩ := monitorLoop_length_le d i f trace
    c0.bytes_sent c0.bytes_recv
  refine ⟨hm, ?_, by rw [hm]; exact l1, by rw [hm]; exact l2,
    by rw [hm]; exact l3, by rw [hm]; exact l4, by rw [hm]; exact l5⟩
  intro e he
  rw [hm]
  cases e
  · left
    simp [he, catchExit]
  · right
    simp [he, catchExit]

/-- C10 witness: a host trace whose first tick's counter query raises a
generic exception still yields a normal return, with one of the two caught
reasons and lists bounded by the single-tick trace. -/
theorem C10_always_returns_lists_witness :
    ((monitor_network_traffic "eth0" 30 1 false [("eth0", ⟨0, 0⟩)]
      [⟨0, .ok (some ⟨true⟩), .error .generalException, .ok 0, .ok 0, .ok 0,
        .ok ()⟩]).reason = .caughtKeyboardInterrupt ∨
    (monitor_network_traffic "eth0" 30 1 false [("eth0", ⟨0, 0⟩)]
      [⟨0, .ok (some ⟨true⟩), .error .generalException, .ok 0, .ok 0, .ok 0,
        .ok ()⟩]).reason = .caughtException) ∧
    (monitor_network_traffic "eth0" 30 1 false [("eth0", ⟨0, 0⟩)]
      [⟨0, .ok (some ⟨true⟩), .error .generalException, .ok 0, .ok 0, .ok 0,
        .ok ()⟩]).lists.time_values.length ≤ 1 := by
  have h := C10_always_returns_lists "eth0" 30 1 false [("eth0", ⟨0, 0⟩)]
    [⟨0, .ok (some ⟨true⟩), .error .generalException, .ok 0, .ok 0, .ok 0,
      .ok ()⟩] ⟨0, 0⟩ (by norm_num) (by decide)
  exact ⟨h.2.1 .generalException (by decide), h.2.2.1⟩

end Rede
